import Mathlib

/-!
Shallow embedding of the VISA and Mastercard trace validator (src/app.py):
the trace-line parser, the scheme detector, the mandatory-field resolver and
the field validator, with theorems settling the specification claims.

The specification table (data_elements, loaded from an external JSON file) is
an external input of the program; it is modelled as an association list
parameter of the validator functions.

Strings are handled on ASCII input: the character classes of the trace
patterns (digits, whitespace, alphanumerics) are modelled by their ASCII
meaning, which is what the trace files contain.
-/

/-- ASCII whitespace as matched by the whitespace class of the patterns and
stripped by strip. -/
def isWS (c : Char) : Bool :=
  c == ' ' || c == '\t' || c == '\n' || c == '\r' || c.toNat == 11 || c.toNat == 12

/-- Python str.strip: remove whitespace from both ends. -/
def pyStrip (s : String) : String :=
  String.mk (((s.data.dropWhile isWS).reverse.dropWhile isWS).reverse)

/-- Python str.isdigit on ASCII input: nonempty and all characters 0 to 9. -/
def pyIsDigit (s : String) : Bool :=
  !s.data.isEmpty && s.data.all Char.isDigit

/-- Python str.isalnum on ASCII input: nonempty and all characters letters or
digits. -/
def pyIsAlnum (s : String) : Bool :=
  !s.data.isEmpty && s.data.all Char.isAlphanum

/-- Value of int(s) on a decimal digit sequence, folding left to right. -/
def pyIntC (l : List Char) : Nat :=
  l.foldl (fun a c => 10 * a + (c.toNat - 48)) 0

/-- Value of int(s) on a decimal digit string. -/
def pyInt (s : String) : Nat := pyIntC s.data

/-- Character of a decimal digit. -/
def digitToChar : Nat → Char
  | 0 => '0' | 1 => '1' | 2 => '2' | 3 => '3' | 4 => '4'
  | 5 => '5' | 6 => '6' | 7 => '7' | 8 => '8' | 9 => '9'
  | _ => '0'

/-- Fuelled most-significant-first decimal digit list of a natural number. -/
def natToStrAux : Nat → Nat → List Char
  | 0, _ => []
  | fuel + 1, n =>
    if n < 10 then [digitToChar n]
    else natToStrAux fuel (n / 10) ++ [digitToChar (n % 10)]

/-- Python str(n) on a natural number. -/
def pyStr (n : Nat) : String := String.mk (natToStrAux (n + 1) n)

/-- Field-number normalization str(int(tok)) used by the parser on captured
numeric tokens. -/
def normalizeField (s : String) : String := pyStr (pyInt s)

/-- Last n elements of a list, the Python slice with negative start. -/
def takeRight {α : Type} (n : Nat) (l : List α) : List α := l.drop (l.length - n)

/-- Consume a literal character sequence from the front of the input. -/
def expectStr : List Char → List Char → Option (List Char)
  | [], l => some l
  | _ :: _, [] => none
  | p :: ps, x :: xs => if x == p then expectStr ps xs else none

/-- Consume one expected character. -/
def expectChar (c : Char) : List Char → Option (List Char)
  | [] => none
  | x :: xs => if x == c then some xs else none

/-- Separator of the trace patterns: whitespace, then an optional colon, then
whitespace. -/
def sepSkip (l : List Char) : List Char :=
  let l1 := l.dropWhile isWS
  let l2 := match l1 with
            | ':' :: r => r
            | _ => l1
  l2.dropWhile isWS

/-- A nonempty digit group closed by a right parenthesis. -/
def digitGroup (l : List Char) : Option (List Char × List Char) :=
  match l.takeWhile Char.isDigit, l.dropWhile Char.isDigit with
  | d :: ds, ')' :: r => some (d :: ds, r)
  | _, _ => none

/-- Length group of the field patterns: digits or the literal LLVAR, closed by
a right parenthesis. -/
def lenGroup (l : List Char) : Option (List Char × List Char) :=
  match digitGroup l with
  | some r => some r
  | none =>
    match l with
    | 'L' :: 'L' :: 'V' :: 'A' :: 'R' :: ')' :: r => some (['L', 'L', 'V', 'A', 'R'], r)
    | _ => none

/-- Content up to the first occurrence of the closing character t, with the
remainder after it. -/
def upToChar (t : Char) : List Char → Option (List Char × List Char)
  | [] => none
  | c :: r =>
    if c == t then some ([], r)
    else match upToChar t r with
         | some (g, rest) => some (c :: g, rest)
         | none => none

/-- Match of the flat field pattern FLD (num) (len|LLVAR) [value] at the head
of the input. -/
def fldMatchAt (l : List Char) : Option (String × String × String) :=
  match expectStr ['F', 'L', 'D'] l with
  | none => none
  | some l1 =>
    match expectChar '(' (l1.dropWhile isWS) with
    | none => none
    | some l2 =>
      match digitGroup l2 with
      | none => none
      | some (d1, l3) =>
        match expectChar '(' (sepSkip l3) with
        | none => none
        | some l4 =>
          match lenGroup l4 with
          | none => none
          | some (d2, l5) =>
            match expectChar '[' (sepSkip l5) with
            | none => none
            | some l6 =>
              match upToChar ']' l6 with
              | none => none
              | some (g3, _) => some (String.mk d1, String.mk d2, String.mk g3)

/-- Leftmost search of the flat field pattern. -/
def fldSearch : List Char → Option (String × String × String)
  | [] => none
  | c :: r =>
    match fldMatchAt (c :: r) with
    | some m => some m
    | none => fldSearch r

/-- Match of the nested start pattern FLD (num) (len|LLVAR) at the head of the
input. -/
def nestedStartMatchAt (l : List Char) : Option (String × String) :=
  match expectStr ['F', 'L', 'D'] l with
  | none => none
  | some l1 =>
    match expectChar '(' (l1.dropWhile isWS) with
    | none => none
    | some l2 =>
      match digitGroup l2 with
      | none => none
      | some (d1, l3) =>
        match expectChar '(' (sepSkip l3) with
        | none => none
        | some l4 =>
          match lenGroup l4 with
          | none => none
          | some (d2, _) => some (String.mk d1, String.mk d2)

/-- Leftmost search of the nested start pattern. -/
def nestedStartSearch : List Char → Option (String × String)
  | [] => none
  | c :: r =>
    match nestedStartMatchAt (c :: r) with
    | some m => some m
    | none => nestedStartSearch r

/-- First bracketed group at or after the current position: the lazy tail of
the nested tag pattern. -/
def bracketAfter : List Char → Option String
  | [] => none
  | c :: r =>
    if c == '[' then
      match upToChar ']' r with
      | some (g, _) => some (String.mk g)
      | none => none
    else bracketAfter r

/-- Leftmost match of the nested tag pattern: a parenthesized group followed
somewhere later by a bracketed group. -/
def nestedLineSearch : List Char → Option (String × String)
  | [] => none
  | c :: r =>
    if c == '(' then
      match upToChar ')' r with
      | some (g1, rest) =>
        match bracketAfter rest with
        | some g2 => some (String.mk g1, g2)
        | none => nestedLineSearch r
      | none => nestedLineSearch r
    else nestedLineSearch r

/-- Leftmost bracketed nonempty digit group, the MTI header pattern. -/
def mtiSearch : List Char → Option String
  | [] => none
  | c :: r =>
    if c == '[' then
      match r.takeWhile Char.isDigit, r.dropWhile Char.isDigit with
      | d :: ds, ']' :: _ => some (String.mk (d :: ds))
      | _, _ => mtiSearch r
    else mtiSearch r

/-- Prefix test on character lists. -/
def isPre : List Char → List Char → Bool
  | [], _ => true
  | _ :: _, [] => false
  | p :: ps, x :: xs => p == x && isPre ps xs

/-- Substring containment on character lists. -/
def hasSub (pat : List Char) : List Char → Bool
  | [] => pat.isEmpty
  | c :: r => isPre pat (c :: r) || hasSub pat r

/-- The Python in operator on strings. -/
def containsSub (pat s : String) : Bool := hasSub pat.data s.data

/-- Does the string start with the given character. -/
def strStarts (s : String) (c : Char) : Bool :=
  match s.data with
  | x :: _ => x == c
  | [] => false

/-- Field value captured by the parser: a flat scalar string or a nested
tag-to-value map. -/
inductive FieldValue
  | Scalar (s : String)
  | Nested (m : List (String × String))
deriving DecidableEq

/-- Insertion-ordered dict update: replace the value in place when the key is
present, append a new entry otherwise. -/
def dictInsert {α : Type} (k : String) (v : α) : List (String × α) → List (String × α)
  | [] => [(k, v)]
  | (k0, v0) :: rest =>
    if k0 == k then (k0, v) :: rest else (k0, v0) :: dictInsert k v rest

/-- A parsed trace message: its MTI and its captured field map. -/
structure TraceMessage where
  mti : String
  fields : List (String × FieldValue)
deriving DecidableEq

/-- State of the per-line parser loop: finished messages, the message under
construction, and the active nested field number. -/
structure ParserState where
  msgs : List TraceMessage
  cur : Option TraceMessage
  nested_field : Option String
deriving DecidableEq

/-- Write of a nested tag through the nested_data alias: in the program the
active nested dict object is the very dict stored in the field map, so the
write updates that entry; when the stored entry is not a nested map the
aliased dict is detached from the message and the write does not change it. -/
def nestedWrite (n tag v : String) (fields : List (String × FieldValue)) :
    List (String × FieldValue) :=
  match List.lookup n fields with
  | some (FieldValue.Nested m) => dictInsert n (FieldValue.Nested (dictInsert tag v m)) fields
  | _ => fields

/-- Tail of the per-line loop: reset nesting when a non-continuation FLD line
appears, then record a scalar field on a full flat pattern match. -/
def flatStep (st : ParserState) (cm : TraceMessage) (line : String) : ParserState :=
  let nf := if containsSub "FLD" line && !(strStarts line '>') then none else st.nested_field
  match fldSearch line.data with
  | some (fnum, _len, value) =>
    { st with
      cur := some { cm with
        fields := dictInsert (normalizeField fnum) (FieldValue.Scalar (pyStrip value)) cm.fields },
      nested_field := nf }
  | none => { st with nested_field := nf }

/-- One line of the parser loop of the program, on the decoded line. -/
def processLine (st : ParserState) (raw : String) : ParserState :=
  let line := pyStrip raw
  if containsSub "M.T.I" line then
    match mtiSearch line.data with
    | some mti =>
      { msgs := st.msgs ++ st.cur.toList,
        cur := some { mti := mti, fields := [("MTI", FieldValue.Scalar mti)] },
        nested_field := none }
    | none => st
  else
    match st.cur with
    | none => st
    | some cm =>
      if containsSub "FLD (055)" line || containsSub "FLD (062)" line ||
          containsSub "FLD (063)" line then
        match nestedStartSearch line.data with
        | some (fnum, _len) =>
          let n := normalizeField fnum
          { st with
            cur := some { cm with fields := dictInsert n (FieldValue.Nested []) cm.fields },
            nested_field := some n }
        | none => st
      else
        match st.nested_field with
        | some n =>
          if !(n == "") && strStarts line '>' then
            match nestedLineSearch line.data with
            | some (tag, v) =>
              { st with
                cur := some { cm with fields := nestedWrite n (pyStrip tag) (pyStrip v) cm.fields } }
            | none => st
          else flatStep st cm line
        | none => flatStep st cm line

/-- Initial parser state. -/
def initState : ParserState := { msgs := [], cur := none, nested_field := none }

/-- The trace parser: fold the per-line loop over the decoded lines; the
message under construction at end of input is implicitly finalized. -/
def parseTrace (lines : List String) : List TraceMessage :=
  let st := lines.foldl processLine initState
  st.msgs ++ st.cur.toList

/-- Card scheme. -/
inductive Scheme
  | Visa
  | Mastercard
deriving DecidableEq

/-- One data-element rule of the specification table. -/
structure Rule where
  Length : String
  Format : String
  Usage : List (String × String)
deriving DecidableEq

/-- The specification table, an association list keyed by field number. -/
abbrev DataElements := List (String × Rule)

/-- Scheme detector: Mastercard exactly when field 126 was captured. -/
def detect_scheme (fields : List (String × FieldValue)) : Scheme :=
  if (List.lookup "126" fields).isSome then Scheme.Mastercard else Scheme.Visa

/-- The usage test of the program: mandatory under the wildcard or under the
message MTI. -/
def usageMandatory (r : Rule) (mti : String) : Bool :=
  List.lookup "all" r.Usage == some "M" || List.lookup mti r.Usage == some "M"

/-- The response-code fetch rc of the program: entry 39 of the captured field
map when a map was passed. In the program an empty dict is falsy and skips the
fetch, but a lookup in an empty map is none as well, so the two coincide. -/
def rcOf (field_values : Option (List (String × FieldValue))) : Option FieldValue :=
  match field_values with
  | some fv => List.lookup "39" fv
  | none => none

/-- The field validator validate_field of the program. The length parameter is
received but never read, as in the source. -/
def validate_field (de : DataElements) (field_num length value mti : String)
    (scheme : Scheme) (field_values : Option (List (String × FieldValue))) : Option String :=
  match List.lookup field_num de with
  | none => none
  | some rule =>
    if usageMandatory rule mti && value == "" then
      some ("Missing mandatory field " ++ field_num)
    else if field_num == "42" then
      if pyStrip value == "" then some ("Missing mandatory field " ++ field_num) else none
    else if field_num == "12" then
      let clean := String.mk (takeRight 6 (value.data.filter Char.isDigit))
      if !pyIsDigit clean || clean.length != 6 then
        some ("Invalid length: expected 6, got " ++ pyStr clean.length ++ " (raw " ++ value ++ ")")
      else none
    else if field_num == "13" then
      let clean := String.mk (takeRight 4 (value.data.filter Char.isDigit))
      if !pyIsDigit clean || clean.length != 4 then
        some ("Invalid length: expected 4, got " ++ pyStr clean.length ++ " (raw " ++ value ++ ")")
      else none
    else if field_num == "22" then
      let clean := String.mk ((pyStrip value).data.take 4)
      if !pyIsDigit clean || (clean.length != 3 && clean.length != 4) then
        some ("Invalid length: expected 3 or 4, got " ++ pyStr clean.length ++
          " (raw " ++ value ++ ")")
      else none
    else if field_num == "25" then
      let clean0 := String.mk ((pyStrip value).data.take 2)
      let clean := if clean0.length == 1 then "0" ++ clean0 else clean0
      if !pyIsDigit clean || clean.length != 2 then
        some ("Invalid format/length: expected 2 digits, got " ++ value)
      else none
    else if field_num == "38" then
      match scheme with
      | Scheme.Visa =>
        if (mti == "0210" || mti == "0230" || mti == "0430") &&
            rcOf field_values == some (FieldValue.Scalar "00") then
          if value == "" || value.length != 6 || !pyIsAlnum value then
            some ("Invalid DE 38 for Visa: must be 6 alphanumeric chars in approved responses (raw "
              ++ value ++ ")")
          else none
        else none
      | Scheme.Mastercard =>
        if value == "" || value.length != 6 then
          some ("Invalid DE 38 for Mastercard: must be 6 chars (raw " ++ value ++ ")")
        else if !pyIsAlnum value then
          some ("Invalid DE 38 for Mastercard: must be alphanumeric/numeric (raw " ++ value ++ ")")
        else none
    else if field_num == "100" then
      if pyStrip value == "" then some "Missing mandatory field 100"
      else if !pyIsAlnum value then some "Invalid format: expected alphanumeric"
      else if value.length > 15 then
        some ("Invalid length: expected up to 15, got " ++ pyStr value.length)
      else none
    else
      if pyIsDigit rule.Length && value.length != pyInt rule.Length then
        some ("Invalid length: expected " ++ rule.Length ++ ", got " ++ pyStr value.length)
      else if rule.Format == "n" && !pyIsDigit value then
        some "Invalid format: expected numeric"
      else if rule.Format == "an" && !pyIsAlnum value then
        some "Invalid format: expected alphanumeric"
      else if field_num == "39" && !(value == "00" || value == "01" || value == "02") then
        some ("Invalid response code: " ++ value)
      else none

/-- The mandatory-field resolver get_mandatory_fields of the program,
iterating the specification table in order. -/
def get_mandatory_fields (mti : String) (scheme : Scheme)
    (field_values : Option (List (String × FieldValue))) : DataElements → List String
  | [] => []
  | (fn, rule) :: rest =>
    let tail := get_mandatory_fields mti scheme field_values rest
    if usageMandatory rule mti then
      if fn == "126" && !(mti == "0210" || mti == "0110" || mti == "0430") then tail
      else if fn == "38" then
        match scheme with
        | Scheme.Visa =>
          if rcOf field_values == some (FieldValue.Scalar "00") then fn :: tail else tail
        | Scheme.Mastercard => fn :: tail
      else fn :: tail
    else tail

/-- Per-message validation counters and collected error records
(field, value, issue) of the report loop. -/
structure Summary where
  mandatoryCount : Nat
  available : Nat
  missing : Nat
  passed : Nat
  failed : Nat
  errors : List (String × String × String)
deriving DecidableEq

/-- Body of the per-field loop of the validation phase. -/
def checkField (de : DataElements) (mti : String) (scheme : Scheme)
    (fields : List (String × FieldValue)) (s : Summary) (f : String) : Summary :=
  match List.lookup f fields with
  | some (FieldValue.Nested _) =>
    { s with passed := s.passed + 1, available := s.available + 1 }
  | some (FieldValue.Scalar v) =>
    if v == "" then
      { s with missing := s.missing + 1, failed := s.failed + 1,
               errors := s.errors ++ [(f, "❌ Missing", "Missing mandatory field")] }
    else
      match validate_field de f (pyStr v.length) v mti scheme none with
      | none => { s with available := s.available + 1, passed := s.passed + 1 }
      | some issue =>
        { s with available := s.available + 1, failed := s.failed + 1,
                 errors := s.errors ++ [(f, v, issue)] }
  | none =>
    { s with missing := s.missing + 1, failed := s.failed + 1,
             errors := s.errors ++ [(f, "❌ Missing", "Missing mandatory field")] }

/-- The mandatory-field list of a message after the presence filter of the
report loop: resolved mandatory fields restricted to captured keys. -/
def mandFiltered (de : DataElements) (msg : TraceMessage) : List String :=
  (get_mandatory_fields msg.mti (detect_scheme msg.fields) (some msg.fields) de).filter
    (fun f => (List.lookup f msg.fields).isSome)

/-- Per-message validation of the report loop: resolve mandatory fields, keep
only the captured ones, validate each. -/
def validateMessage (de : DataElements) (msg : TraceMessage) : Summary :=
  (mandFiltered de msg).foldl (checkField de msg.mti (detect_scheme msg.fields) msg.fields)
    { mandatoryCount := (mandFiltered de msg).length, available := 0, missing := 0, passed := 0,
      failed := 0, errors := [] }

/-- Per-file clean and error counters of the report loop. -/
structure Totals where
  total : Nat
  clean : Nat
  withErrors : Nat
deriving DecidableEq

/-- One message of the report loop: network-management MTIs are skipped, the
rest are counted clean or with errors. -/
def totalsStep (de : DataElements) (t : Totals) (msg : TraceMessage) : Totals :=
  if msg.mti == "0800" || msg.mti == "0810" || msg.mti == "0820" then t
  else
    let s := validateMessage de msg
    if s.failed > 0 then
      { total := t.total + 1, clean := t.clean, withErrors := t.withErrors + 1 }
    else
      { total := t.total + 1, clean := t.clean + 1, withErrors := t.withErrors }

/-- The per-file validation totals over a list of messages. -/
def runTotals (de : DataElements) (msgs : List TraceMessage) : Totals :=
  msgs.foldl (totalsStep de) { total := 0, clean := 0, withErrors := 0 }

/-- Count lookup with default 0, the dict get of the counting loop. -/
def lookupNat (l : List (String × Nat)) (k : String) : Nat :=
  (List.lookup k l).getD 0

/-- The MTI counting loop of the program. -/
def mti_counts (msgs : List TraceMessage) : List (String × Nat) :=
  msgs.foldl (fun acc m => dictInsert m.mti (lookupNat acc m.mti + 1) acc) []

/-- Example specification table used by the concrete scenarios: DE 2 and DE 39
mandatory for every MTI, DE 38 mandatory for the response MTIs. -/
def exDE : DataElements :=
  [("2", { Length := "LLVAR", Format := "n", Usage := [("all", "M")] }),
   ("38", { Length := "6", Format := "an", Usage := [("0210", "M"), ("0110", "M"), ("0430", "M")] }),
   ("39", { Length := "2", Format := "n", Usage := [("all", "M")] })]

/-- Invariant of every parsed message: nonempty all-digit MTI, recorded in the
field map under the reserved key. -/
abbrev msgInv (m : TraceMessage) : Prop :=
  m.mti ≠ "" ∧ m.mti.data.all Char.isDigit = true
  ∧ List.lookup "MTI" m.fields = some (FieldValue.Scalar m.mti)

/-- Invariant of the parser state: all finished messages and the message under
construction satisfy the message invariant. -/
def stInv (st : ParserState) : Prop :=
  (∀ m ∈ st.msgs, msgInv m) ∧ ∀ m, st.cur = some m → msgInv m

/-- The concrete Visa 0210 message of scenario 3: field 39 approved, field 38
absent from the capture. -/
def msgC1 : TraceMessage :=
  { mti := "0210", fields := [("MTI", FieldValue.Scalar "0210"), ("39", FieldValue.Scalar "00")] }

/-- The message of the C4 counterexample: a mandatory field captured with an
empty value. -/
def msgC4 : TraceMessage :=
  { mti := "0210", fields := [("MTI", FieldValue.Scalar "0210"), ("2", FieldValue.Scalar "")] }

/-- The empty summary used by concrete witnesses. -/
def sW0 : Summary :=
  { mandatoryCount := 0, available := 0, missing := 0, passed := 0, failed := 0, errors := [] }

/-- The network-management message of the C8 witness. -/
def msgC8 : TraceMessage := { mti := "0800", fields := [("MTI", FieldValue.Scalar "0800")] }

/-- Parser state after the three lines recording field 55 as Nested. -/
def stC5 : ParserState :=
  List.foldl processLine initState
    ["M.T.I : [0210]", "FLD (055) (010)", "> (9F02) : [000000001000]"]

/-- The message under construction in stC5. -/
def cmC5 : TraceMessage :=
  { mti := "0210",
    fields := [("MTI", FieldValue.Scalar "0210"),
               ("55", FieldValue.Nested [("9F02", "000000001000")])] }

/-- The message after the downgrading flat line. -/
def cmC5A : TraceMessage :=
  { mti := "0210",
    fields := [("MTI", FieldValue.Scalar "0210"), ("55", FieldValue.Scalar "abc")] }

theorem lookup_cons_eq {α : Type} (k k0 : String) (v0 : α) (l : List (String × α))
    (h : k = k0) : List.lookup k ((k0, v0) :: l) = some v0 := by
  have hb : (k == k0) = true := by simp [h]
  simp [List.lookup, hb]

theorem lookup_cons_ne {α : Type} (k k0 : String) (v0 : α) (l : List (String × α))
    (h : ¬k = k0) : List.lookup k ((k0, v0) :: l) = List.lookup k l := by
  have hb : (k == k0) = false := by simp [h]
  simp [List.lookup, hb]

theorem lookup_dictInsert {α : Type} (k1 k : String) (v : α) (l : List (String × α)) :
    List.lookup k1 (dictInsert k v l) = if k1 = k then some v else List.lookup k1 l := by
  induction l with
  | nil =>
    by_cases h : k1 = k
    · simp [dictInsert, lookup_cons_eq k1 k v [] h, h]
    · rw [show dictInsert k v ([] : List (String × α)) = [(k, v)] from rfl,
        lookup_cons_ne k1 k v [] h, if_neg h]
  | cons p rest ih =>
    obtain ⟨k0, v0⟩ := p
    by_cases h0 : k0 = k
    · subst h0
      by_cases h1 : k1 = k0
      · simp [dictInsert, lookup_cons_eq k1 k0 v rest h1, lookup_cons_eq k1 k0 v0 rest h1, h1]
      · simp [dictInsert, lookup_cons_ne k1 k0 v rest h1, lookup_cons_ne k1 k0 v0 rest h1, h1]
    · have hb0 : (k0 == k) = false := by simp [h0]
      by_cases h1 : k1 = k0
      · have hk : ¬k1 = k := by rw [h1]; exact h0
        simp [dictInsert, hb0, lookup_cons_eq k1 k0 v0 _ h1, hk]
      · simp [dictInsert, hb0, lookup_cons_ne k1 k0 v0 _ h1, ih]

theorem digitToChar_isDigit (d : Nat) : (digitToChar d).isDigit = true := by
  match d with
  | 0 | 1 | 2 | 3 | 4 | 5 | 6 | 7 | 8 | 9 => rfl
  | (n + 10) => rfl

theorem digitToChar_toNat (d : Nat) (h : d < 10) : (digitToChar d).toNat = 48 + d := by
  interval_cases d <;> rfl

theorem pyIntC_append (l : List Char) (c : Char) :
    pyIntC (l ++ [c]) = 10 * pyIntC l + (c.toNat - 48) := by
  unfold pyIntC
  rw [List.foldl_append]
  rfl

theorem natToStrAux_val : ∀ fuel n, n < fuel → pyIntC (natToStrAux fuel n) = n := by
  intro fuel
  induction fuel with
  | zero => intro n h; omega
  | succ fuel ih =>
    intro n h
    unfold natToStrAux
    by_cases h10 : n < 10
    · have hc := digitToChar_toNat n h10
      simp only [h10, if_true]
      show pyIntC [digitToChar n] = n
      unfold pyIntC
      simp [hc]
    · have hn : 10 ≤ n := Nat.le_of_not_lt h10
      have hdiv : n / 10 < fuel := by
        have : n / 10 < n := Nat.div_lt_self (by omega) (by omega)
        omega
      simp only [h10, if_false]
      rw [pyIntC_append, ih _ hdiv, digitToChar_toNat (n % 10) (Nat.mod_lt n (by omega))]
      omega

theorem pyInt_pyStr (n : Nat) : pyInt (pyStr n) = n := by
  show pyIntC (natToStrAux (n + 1) n) = n
  exact natToStrAux_val (n + 1) n (Nat.lt_succ_self n)

theorem normalizeField_idem (s : String) : normalizeField (normalizeField s) = normalizeField s := by
  unfold normalizeField
  rw [pyInt_pyStr]

theorem natToStrAux_all_digits : ∀ fuel n, (natToStrAux fuel n).all Char.isDigit = true := by
  intro fuel
  induction fuel with
  | zero => intro n; rfl
  | succ fuel ih =>
    intro n
    unfold natToStrAux
    by_cases h : n < 10 <;> simp [h, digitToChar_isDigit, ih]

theorem natToStrAux_ne_nil (fuel n : Nat) : natToStrAux (fuel + 1) n ≠ [] := by
  unfold natToStrAux
  by_cases h : n < 10 <;> simp [h]

theorem pyStr_ne_empty (n : Nat) : pyStr n ≠ "" := by
  intro h
  exact natToStrAux_ne_nil n n (congrArg String.data h)

theorem normalizeField_ne_MTI (s : String) : normalizeField s ≠ "MTI" := by
  intro h
  have hd : natToStrAux (pyInt s + 1) (pyInt s) = ['M', 'T', 'I'] := congrArg String.data h
  have hall := natToStrAux_all_digits (pyInt s + 1) (pyInt s)
  rw [hd] at hall
  exact absurd hall (by decide)

theorem all_takeWhile (p : Char → Bool) : ∀ l : List Char, (l.takeWhile p).all p = true := by
  intro l
  induction l with
  | nil => rfl
  | cons c r ih => by_cases h : p c <;> simp [List.takeWhile_cons, h, ih]

theorem mtiSearch_ok : ∀ l s, mtiSearch l = some s → s ≠ "" ∧ s.data.all Char.isDigit = true := by
  intro l
  induction l with
  | nil => intro s h; simp [mtiSearch] at h
  | cons c r ih =>
    intro s h
    unfold mtiSearch at h
    split at h
    · split at h
      · rename_i heq1 heq2
        injection h with h
        subst h
        refine ⟨?_, ?_⟩
        · intro he
          have hne := congrArg String.data he
          simp at hne
        · show (_ :: _ : List Char).all Char.isDigit = true
          rw [← heq1]
          exact all_takeWhile Char.isDigit r
      · exact ih s h
    · exact ih s h

/-- C3: the scheme detector returns Mastercard exactly when the key 126 is
present in the field map, whatever value it holds, and Visa exactly when it is
absent; no other field participates since the map is otherwise unconstrained. -/
theorem C3_detect_scheme (fields : List (String × FieldValue)) :
    (detect_scheme fields = Scheme.Mastercard ↔ (List.lookup "126" fields).isSome = true)
    ∧ (detect_scheme fields = Scheme.Visa ↔ (List.lookup "126" fields).isSome = false) := by
  unfold detect_scheme
  by_cases h : (List.lookup "126" fields).isSome = true <;> simp [h]

/-- C9: field-number normalization maps a numeric token to its
leading-zero-stripped decimal string, so 007 and 7 both yield 7, and it is
idempotent on numeric tokens. -/
theorem C9_normalization : normalizeField "007" = "7" ∧ normalizeField "7" = "7"
    ∧ ∀ s : String, pyIsDigit s = true → normalizeField (normalizeField s) = normalizeField s := by
  refine ⟨by decide, by decide, ?_⟩
  intro s _
  exact normalizeField_idem s

/-- Witness for C9 at the token 007. -/
theorem C9_normalization_witness :
    pyIsDigit "007" = true ∧ normalizeField (normalizeField "007") = normalizeField "007" :=
  ⟨by decide, C9_normalization.2.2 "007" (by decide)⟩

theorem lookup_MTI_dictInsert_norm (x : String) (v : FieldValue)
    (fields : List (String × FieldValue)) :
    List.lookup "MTI" (dictInsert (normalizeField x) v fields) = List.lookup "MTI" fields := by
  rw [lookup_dictInsert, if_neg]
  intro he
  exact normalizeField_ne_MTI x he.symm

theorem nestedWrite_MTI (n tag v t : String) (fields : List (String × FieldValue))
    (h : List.lookup "MTI" fields = some (FieldValue.Scalar t)) :
    List.lookup "MTI" (nestedWrite n tag v fields) = some (FieldValue.Scalar t) := by
  unfold nestedWrite
  split
  · rename_i m heq
    rw [lookup_dictInsert, if_neg]
    · exact h
    · intro he
      rw [← he, h] at heq
      cases heq
  · exact h

theorem stInv_flatStep (st : ParserState) (cm : TraceMessage) (line : String)
    (h : stInv st) (hcm : msgInv cm) : stInv (flatStep st cm line) := by
  obtain ⟨hmsgs, hcur⟩ := h
  simp only [flatStep]
  split
  · rename_i fnum len value heq
    refine ⟨hmsgs, ?_⟩
    intro m hm
    injection hm with hm
    subst hm
    exact ⟨hcm.1, hcm.2.1, by
      rw [lookup_MTI_dictInsert_norm]
      exact hcm.2.2⟩
  · exact ⟨hmsgs, hcur⟩

theorem stInv_processLine (st : ParserState) (line : String) (h : stInv st) :
    stInv (processLine st line) := by
  obtain ⟨hmsgs, hcur⟩ := h
  simp only [processLine]
  split
  · split
    · rename_i mti hmti
      refine ⟨?_, ?_⟩
      · intro m hm
        rcases List.mem_append.mp hm with h1 | h1
        · exact hmsgs m h1
        · cases hc : st.cur with
          | none => rw [hc] at h1; cases h1
          | some m0 =>
            rw [hc] at h1
            simp at h1
            subst h1
            exact hcur _ hc
      · intro m hm
        injection hm with hm
        subst hm
        obtain ⟨hne, hdig⟩ := mtiSearch_ok _ mti hmti
        exact ⟨hne, hdig, lookup_cons_eq "MTI" "MTI" _ [] rfl⟩
    · exact ⟨hmsgs, hcur⟩
  · split
    · exact ⟨hmsgs, hcur⟩
    · rename_i cm hcm
      have hinv := hcur cm hcm
      split
      · split
        · rename_i fnum len hns
          refine ⟨hmsgs, ?_⟩
          intro m hm
          injection hm with hm
          subst hm
          exact ⟨hinv.1, hinv.2.1, by
            rw [lookup_MTI_dictInsert_norm]
            exact hinv.2.2⟩
        · exact ⟨hmsgs, hcur⟩
      · split
        · rename_i n hn
          split
          · split
            · rename_i tag v hnl
              refine ⟨hmsgs, ?_⟩
              intro m hm
              injection hm with hm
              subst hm
              exact ⟨hinv.1, hinv.2.1, nestedWrite_MTI n (pyStrip tag) (pyStrip v) cm.mti
                cm.fields hinv.2.2⟩
            · exact ⟨hmsgs, hcur⟩
          · exact stInv_flatStep st cm _ ⟨hmsgs, hcur⟩ hinv
        · exact stInv_flatStep st cm _ ⟨hmsgs, hcur⟩ hinv

theorem stInv_foldl (lines : List String) :
    ∀ st, stInv st → stInv (lines.foldl processLine st) := by
  induction lines with
  | nil => intro st h; exact h
  | cons l rest ih => intro st h; exact ih _ (stInv_processLine st l h)

/-- C10: every TraceMessage appended by the parser has a nonempty all-digit
MTI, and its field map binds the reserved key MTI to that value; no later
field, nested-start or continuation line of the message removes or overwrites
the binding. -/
theorem C10_mti_invariant (lines : List String) (m : TraceMessage)
    (hm : m ∈ parseTrace lines) : msgInv m := by
  have h0 : stInv initState :=
    ⟨fun m hm => absurd hm (List.not_mem_nil m), fun m hm => by cases hm⟩
  have h := stInv_foldl lines initState h0
  simp only [parseTrace] at hm
  rcases List.mem_append.mp hm with h1 | h1
  · exact h.1 m h1
  · cases hc : (lines.foldl processLine initState).cur with
    | none => rw [hc] at h1; cases h1
    | some m0 =>
      rw [hc] at h1
      simp at h1
      subst h1
      exact h.2 _ hc

/-- Witness for C10 on a one-line trace. -/
theorem C10_mti_invariant_witness :
    ({ mti := "0200", fields := [("MTI", FieldValue.Scalar "0200")] } : TraceMessage)
      ∈ parseTrace ["M.T.I [0200]"]
    ∧ msgInv { mti := "0200", fields := [("MTI", FieldValue.Scalar "0200")] } :=
  ⟨by decide, C10_mti_invariant ["M.T.I [0200]"] _ (by decide)⟩

theorem exists38_cons (fn : String) (rule : Rule) (rest : DataElements) (mti : String)
    (hhead : ¬(fn = "38" ∧ usageMandatory rule mti = true)) :
    (∃ r : Rule, ("38", r) ∈ (fn, rule) :: rest ∧ usageMandatory r mti = true)
      ↔ (∃ r : Rule, ("38", r) ∈ rest ∧ usageMandatory r mti = true) := by
  constructor
  · rintro ⟨r, hr, hm⟩
    rcases List.mem_cons.mp hr with he | he
    · injection he with he1 he2
      subst he2
      exact absurd ⟨he1.symm, hm⟩ hhead
    · exact ⟨r, he, hm⟩
  · rintro ⟨r, hr, hm⟩
    exact ⟨r, List.mem_cons_of_mem _ hr, hm⟩

theorem mem38_get_mandatory (de : DataElements) (mti : String) (scheme : Scheme)
    (fv : Option (List (String × FieldValue))) :
    "38" ∈ get_mandatory_fields mti scheme fv de ↔
      ((∃ r : Rule, ("38", r) ∈ de ∧ usageMandatory r mti = true) ∧
        (scheme = Scheme.Visa → rcOf fv = some (FieldValue.Scalar "00"))) := by
  induction de with
  | nil => simp [get_mandatory_fields]
  | cons p rest ih =>
    obtain ⟨fn, rule⟩ := p
    by_cases hu : usageMandatory rule mti = true
    · by_cases hfn : fn = "38"
      · subst hfn
        cases scheme with
        | Visa =>
          by_cases hrc : rcOf fv = some (FieldValue.Scalar "00")
          · have hb : (rcOf fv == some (FieldValue.Scalar "00")) = true := by simp [hrc]
            simp only [get_mandatory_fields, hu, hb, if_true]
            rw [show (("38" : String) == "126") = false from by decide]
            rw [show (("38" : String) == "38") = true from by decide]
            simp only [Bool.false_and, Bool.false_eq_true, if_false, if_true]
            constructor
            · intro _
              exact ⟨⟨rule, List.mem_cons_self _ _, hu⟩, fun _ => hrc⟩
            · intro _
              exact List.mem_cons_self _ _
          · have hb : (rcOf fv == some (FieldValue.Scalar "00")) = false := by simp [hrc]
            simp only [get_mandatory_fields, hu, hb, if_true]
            rw [show (("38" : String) == "126") = false from by decide]
            rw [show (("38" : String) == "38") = true from by decide]
            simp only [Bool.false_and, Bool.false_eq_true, if_false, if_true]
            rw [ih]
            constructor
            · rintro ⟨hA, hB⟩
              exact absurd (hB (by trivial)) hrc
            · rintro ⟨hA, hB⟩
              exact absurd (hB (by trivial)) hrc
        | Mastercard =>
          simp only [get_mandatory_fields, hu, if_true]
          rw [show (("38" : String) == "126") = false from by decide]
          rw [show (("38" : String) == "38") = true from by decide]
          simp only [Bool.false_and, Bool.false_eq_true, if_false, if_true]
          constructor
          · intro _
            refine ⟨⟨rule, List.mem_cons_self _ _, hu⟩, ?_⟩
            intro hv
            cases hv
          · intro _
            exact List.mem_cons_self _ _
      · have hfb : (fn == "38") = false := by simp [hfn]
        have hne : ("38" : String) ≠ fn := fun he => hfn he.symm
        have hA := exists38_cons fn rule rest mti (fun hc => hfn hc.1)
        by_cases h126 : (fn == "126" && !(mti == "0210" || mti == "0110" || mti == "0430")) = true
        · simp only [get_mandatory_fields, hu, h126, if_true]
          rw [ih]
          exact and_congr_left' hA.symm
        · have h126f : (fn == "126" && !(mti == "0210" || mti == "0110" || mti == "0430")) = false := by
            revert h126
            cases fn == "126" && !(mti == "0210" || mti == "0110" || mti == "0430") <;> simp
          simp only [get_mandatory_fields, hu, h126f, hfb, Bool.false_eq_true, if_false, if_true]
          rw [List.mem_cons]
          simp only [hne, false_or]
          rw [ih]
          exact and_congr_left' hA.symm
    · have hu0 : usageMandatory rule mti = false := by
        revert hu; cases usageMandatory rule mti <;> simp
      have hA := exists38_cons fn rule rest mti (fun hc => by rw [hu0] at hc; cases hc.2)
      simp only [get_mandatory_fields, hu0, Bool.false_eq_true, if_false]
      rw [ih]
      exact and_congr_left' hA.symm

/-- C2: for every MTI and captured field map, the resolver includes field 38
under Visa exactly when the captured field 39 is the scalar 00 (given that
some rule of the table marks 38 mandatory for the MTI or the wildcard, as the
claim presupposes), and under Mastercard it includes 38 whenever usage marks
it mandatory, with no condition on field 39. -/
theorem C2_resolver_field38 (de : DataElements) (mti : String)
    (fields : List (String × FieldValue))
    (h : de.any (fun p => p.1 == "38" && usageMandatory p.2 mti) = true) :
    ("38" ∈ get_mandatory_fields mti Scheme.Visa (some fields) de ↔
        List.lookup "39" fields = some (FieldValue.Scalar "00"))
    ∧ "38" ∈ get_mandatory_fields mti Scheme.Mastercard (some fields) de := by
  have hex : ∃ r : Rule, ("38", r) ∈ de ∧ usageMandatory r mti = true := by
    rcases List.any_eq_true.mp h with ⟨p, hp, hcond⟩
    have hc2 : p.1 = "38" ∧ usageMandatory p.2 mti = true := by simpa using hcond
    refine ⟨p.2, ?_, hc2.2⟩
    rw [← hc2.1]
    simpa using hp
  constructor
  · rw [mem38_get_mandatory]
    simp [rcOf, hex]
  · rw [mem38_get_mandatory]
    simp [hex]

/-- Witness for C2 on the example table with MTI 0210. -/
theorem C2_resolver_field38_witness :
    (exDE.any (fun p => p.1 == "38" && usageMandatory p.2 "0210") = true)
    ∧ (("38" ∈ get_mandatory_fields "0210" Scheme.Visa
            (some [("39", FieldValue.Scalar "00")]) exDE ↔
          List.lookup "39" [("39", FieldValue.Scalar "00")] = some (FieldValue.Scalar "00"))
       ∧ "38" ∈ get_mandatory_fields "0210" Scheme.Mastercard
            (some [("39", FieldValue.Scalar "00")]) exDE) :=
  ⟨by decide, C2_resolver_field38 exDE "0210" [("39", FieldValue.Scalar "00")] (by decide)⟩

/-- C1 counterexample: on the scenario-3 message the resolver does include
field 38, but the report loop filters the mandatory list down to captured
fields before validating, so no verdict at all is recorded for field 38: the
error list is empty and the missing count is zero, refuting the claimed
missing-field failure verdict. -/
theorem C1_counterexample :
    "38" ∈ get_mandatory_fields "0210" (detect_scheme msgC1.fields) (some msgC1.fields) exDE
    ∧ (validateMessage exDE msgC1).errors = []
    ∧ (validateMessage exDE msgC1).missing = 0 := by
  decide

theorem errors_mem_checkField (de : DataElements) (mti : String) (scheme : Scheme)
    (fields : List (String × FieldValue)) (s : Summary) (f : String)
    (e : String × String × String) (he : e ∈ (checkField de mti scheme fields s f).errors) :
    e ∈ s.errors ∨ e.1 = f := by
  unfold checkField at he
  split at he
  · exact Or.inl he
  · split at he
    · rcases List.mem_append.mp he with h1 | h1
      · exact Or.inl h1
      · simp at h1
        exact Or.inr (by rw [h1])
    · split at he
      · exact Or.inl he
      · rcases List.mem_append.mp he with h1 | h1
        · exact Or.inl h1
        · simp at h1
          exact Or.inr (by rw [h1])
  · rcases List.mem_append.mp he with h1 | h1
    · exact Or.inl h1
    · simp at h1
      exact Or.inr (by rw [h1])

theorem errors_mem_foldl (de : DataElements) (mti : String) (scheme : Scheme)
    (fields : List (String × FieldValue)) :
    ∀ (l : List String) (s : Summary) (e : String × String × String),
      e ∈ (l.foldl (checkField de mti scheme fields) s).errors → e ∈ s.errors ∨ e.1 ∈ l := by
  intro l
  induction l with
  | nil => intro s e he; exact Or.inl he
  | cons f rest ih =>
    intro s e he
    rcases ih (checkField de mti scheme fields s f) e he with h1 | h1
    · rcases errors_mem_checkField de mti scheme fields s f e h1 with h2 | h2
      · exact Or.inl h2
      · exact Or.inr (by rw [h2]; exact List.mem_cons_self _ _)
    · exact Or.inr (List.mem_cons_of_mem _ h1)

/-- C1 amended: for a Visa message with mandatory field 38, MTI with approved
response code captured in field 39, and field 38 absent from the capture, the
resolver does include field 38, but the presence filter of the report loop
drops it before validation, so the validation report records no verdict (in
particular no missing-field failure) for field 38. -/
theorem C1_amended (de : DataElements) (msg : TraceMessage)
    (h : de.any (fun p => p.1 == "38" && usageMandatory p.2 msg.mti) = true)
    (h126 : List.lookup "126" msg.fields = none)
    (h39 : List.lookup "39" msg.fields = some (FieldValue.Scalar "00"))
    (h38 : List.lookup "38" msg.fields = none) :
    "38" ∈ get_mandatory_fields msg.mti (detect_scheme msg.fields) (some msg.fields) de
    ∧ ∀ e ∈ (validateMessage de msg).errors, e.1 ≠ "38" := by
  have hscheme : detect_scheme msg.fields = Scheme.Visa := by
    unfold detect_scheme
    rw [h126]
    rfl
  constructor
  · rw [hscheme, mem38_get_mandatory]
    refine ⟨?_, fun _ => by simpa [rcOf] using h39⟩
    rcases List.any_eq_true.mp h with ⟨p, hp, hcond⟩
    have hc2 : p.1 = "38" ∧ usageMandatory p.2 msg.mti = true := by simpa using hcond
    refine ⟨p.2, ?_, hc2.2⟩
    rw [← hc2.1]
    simpa using hp
  · intro e he hef
    unfold validateMessage at he
    rcases errors_mem_foldl de msg.mti (detect_scheme msg.fields) msg.fields _ _ e he with h1 | h1
    · simp at h1
    · unfold mandFiltered at h1
      rcases List.mem_filter.mp h1 with ⟨_, hf⟩
      rw [hef] at hf
      rw [h38] at hf
      simp at hf

/-- Witness for C1 amended, on the scenario-3 message without field 38. -/
theorem C1_amended_witness :
    (exDE.any (fun p => p.1 == "38" && usageMandatory p.2 msgC1.mti) = true)
    ∧ List.lookup "126" msgC1.fields = none
    ∧ List.lookup "39" msgC1.fields = some (FieldValue.Scalar "00")
    ∧ List.lookup "38" msgC1.fields = none
    ∧ ("38" ∈ get_mandatory_fields msgC1.mti (detect_scheme msgC1.fields) (some msgC1.fields) exDE
       ∧ ∀ e ∈ (validateMessage exDE msgC1).errors, e.1 ≠ "38") :=
  ⟨by decide, by decide, by decide, by decide,
    C1_amended exDE msgC1 (by decide) (by decide) (by decide) (by decide)⟩

theorem checkField_counts (de : DataElements) (mti : String) (scheme : Scheme)
    (fields : List (String × FieldValue)) (s : Summary) (f : String) :
    (checkField de mti scheme fields s f).available + (checkField de mti scheme fields s f).missing
        = s.available + s.missing + 1
    ∧ (checkField de mti scheme fields s f).passed + (checkField de mti scheme fields s f).failed
        = s.passed + s.failed + 1
    ∧ (checkField de mti scheme fields s f).mandatoryCount = s.mandatoryCount := by
  unfold checkField
  split
  · refine ⟨?_, ?_, ?_⟩ <;> simp <;> try omega
  · split
    · refine ⟨?_, ?_, ?_⟩ <;> simp <;> try omega
    · split
      · refine ⟨?_, ?_, ?_⟩ <;> simp <;> try omega
      · refine ⟨?_, ?_, ?_⟩ <;> simp <;> try omega
  · refine ⟨?_, ?_, ?_⟩ <;> simp <;> try omega

theorem foldl_counts (de : DataElements) (mti : String) (scheme : Scheme)
    (fields : List (String × FieldValue)) :
    ∀ (l : List String) (s : Summary),
      ((l.foldl (checkField de mti scheme fields) s).available
          + (l.foldl (checkField de mti scheme fields) s).missing
          = s.available + s.missing + l.length)
      ∧ ((l.foldl (checkField de mti scheme fields) s).passed
          + (l.foldl (checkField de mti scheme fields) s).failed
          = s.passed + s.failed + l.length)
      ∧ (l.foldl (checkField de mti scheme fields) s).mandatoryCount = s.mandatoryCount := by
  intro l
  induction l with
  | nil => intro s; exact ⟨by simp, by simp, rfl⟩
  | cons f rest ih =>
    intro s
    obtain ⟨h1, h2, h3⟩ := checkField_counts de mti scheme fields s f
    obtain ⟨h4, h5, h6⟩ := ih (checkField de mti scheme fields s f)
    simp only [List.foldl_cons, List.length_cons]
    exact ⟨by omega, by omega, by omega⟩

/-- C4 amended: for every table and message, the mandatory count equals
available plus missing, and passed plus failed equals available plus missing
(a missing field increments failed but not available, so passed plus failed
exceeds available whenever a mandatory field is present but empty). -/
theorem C4_summary_counts (de : DataElements) (msg : TraceMessage) :
    (validateMessage de msg).mandatoryCount
        = (validateMessage de msg).available + (validateMessage de msg).missing
    ∧ (validateMessage de msg).passed + (validateMessage de msg).failed
        = (validateMessage de msg).available + (validateMessage de msg).missing := by
  obtain ⟨h1, h2, h3⟩ := foldl_counts de msg.mti (detect_scheme msg.fields) msg.fields
    (mandFiltered de msg)
    { mandatoryCount := (mandFiltered de msg).length, available := 0, missing := 0, passed := 0,
      failed := 0, errors := [] }
  have hv : validateMessage de msg
      = (mandFiltered de msg).foldl (checkField de msg.mti (detect_scheme msg.fields) msg.fields)
        { mandatoryCount := (mandFiltered de msg).length, available := 0, missing := 0,
          passed := 0, failed := 0, errors := [] } := rfl
  rw [hv]
  simp only at h1 h2 h3
  exact ⟨by omega, by omega⟩

/-- C4 counterexample: on a message whose mandatory field 2 is captured empty,
the missing branch increments failed without incrementing available, so passed
plus failed is 1 while available is 0, refuting the claimed equality of passed
plus failed with available. -/
theorem C4_counterexample :
    ¬((validateMessage exDE msgC4).passed + (validateMessage exDE msgC4).failed
        = (validateMessage exDE msgC4).available) := by
  decide

theorem validate38_visa_none (de : DataElements) (l v mti : String) (hv : v ≠ "") :
    validate_field de "38" l v mti Scheme.Visa none = none := by
  unfold validate_field
  cases hlk : List.lookup "38" de with
  | none => rfl
  | some rule =>
    have hvb : (v == "") = false := by simp [hv]
    simp [hvb, rcOf]

/-- C6: the report loop invokes validate_field without the field map (its
field_values parameter is none), so for field 38 under Visa every captured
nonempty value is marked available and passed: the 6-alphanumeric
approved-response check of the Visa branch is unreachable from the loop. -/
theorem C6_loop_visa_de38 (de : DataElements) (mti : String)
    (fields : List (String × FieldValue)) (s : Summary) (v : String)
    (hlk : List.lookup "38" fields = some (FieldValue.Scalar v)) (hv : v ≠ "") :
    checkField de mti Scheme.Visa fields s "38"
      = { s with available := s.available + 1, passed := s.passed + 1 } := by
  unfold checkField
  rw [hlk]
  have hvb : (v == "") = false := by simp [hv]
  simp only [hvb, Bool.false_eq_true, if_false,
    validate38_visa_none de (pyStr v.length) v mti hv]

/-- Witness for C6 on a captured scalar field 38. -/
theorem C6_loop_visa_de38_witness :
    List.lookup "38" [("38", FieldValue.Scalar "A1B2C3")] = some (FieldValue.Scalar "A1B2C3")
    ∧ ("A1B2C3" : String) ≠ ""
    ∧ checkField exDE "0210" Scheme.Visa [("38", FieldValue.Scalar "A1B2C3")] sW0 "38"
        = { sW0 with available := sW0.available + 1, passed := sW0.passed + 1 } :=
  ⟨by decide, by decide,
    C6_loop_visa_de38 exDE "0210" [("38", FieldValue.Scalar "A1B2C3")] sW0 "A1B2C3"
      (by decide) (by decide)⟩

/-- C7: for field 39 with a rule present, once the baseline missing check and
the generic length and format checks pass, the validator yields the
invalid-response-code issue exactly when the value lies outside 00, 01, 02. -/
theorem C7_response_code (de : DataElements) (r : Rule) (l value mti : String) (scheme : Scheme)
    (fv : Option (List (String × FieldValue)))
    (hlk : List.lookup "39" de = some r)
    (hmand : usageMandatory r mti = true → value ≠ "")
    (hlen : pyIsDigit r.Length = true → value.length = pyInt r.Length)
    (hn : r.Format = "n" → pyIsDigit value = true)
    (han : r.Format = "an" → pyIsAlnum value = true) :
    validate_field de "39" l value mti scheme fv
      = (if value == "00" || value == "01" || value == "02" then none
         else some ("Invalid response code: " ++ value)) := by
  unfold validate_field
  rw [hlk]
  have h1 : (usageMandatory r mti && (value == "")) = false := by
    cases hu : usageMandatory r mti
    · simp
    · simp [hmand hu]
  have h2 : (pyIsDigit r.Length && (value.length != pyInt r.Length)) = false := by
    cases hd : pyIsDigit r.Length
    · simp
    · simp [hlen hd]
  have h3 : ((r.Format == "n") && !pyIsDigit value) = false := by
    by_cases hf : r.Format = "n"
    · simp [hf, hn hf]
    · simp [hf]
  have h4 : ((r.Format == "an") && !pyIsAlnum value) = false := by
    by_cases hf : r.Format = "an"
    · simp [hf, han hf]
    · simp [hf]
  simp only [h1, h2, h3, h4, Bool.false_eq_true, if_false]
  cases hmem : (value == "00" || value == "01" || value == "02") <;> simp [hmem]

/-- Witness for C7: under the example table, value 05 fails with the
invalid-response-code issue and value 00 passes. -/
theorem C7_response_code_witness :
    List.lookup "39" exDE = some { Length := "2", Format := "n", Usage := [("all", "M")] }
    ∧ validate_field exDE "39" "2" "05" "0210" Scheme.Visa none
        = (if ("05" : String) == "00" || ("05" : String) == "01" || ("05" : String) == "02"
           then none else some ("Invalid response code: " ++ "05"))
    ∧ validate_field exDE "39" "2" "00" "0210" Scheme.Visa none
        = (if ("00" : String) == "00" || ("00" : String) == "01" || ("00" : String) == "02"
           then none else some ("Invalid response code: " ++ "00")) :=
  ⟨by decide,
   C7_response_code exDE { Length := "2", Format := "n", Usage := [("all", "M")] } "2" "05"
     "0210" Scheme.Visa none (by decide) (by decide) (by decide)
     (by decide) (by decide),
   C7_response_code exDE { Length := "2", Format := "n", Usage := [("all", "M")] } "2" "00"
     "0210" Scheme.Visa none (by decide) (by decide) (by decide)
     (by decide) (by decide)⟩

theorem lookupNat_dictInsert (j : String) (n : Nat) (l : List (String × Nat)) (k : String) :
    lookupNat (dictInsert j n l) k = if k = j then n else lookupNat l k := by
  unfold lookupNat
  rw [lookup_dictInsert]
  by_cases h : k = j <;> simp [h]

theorem mti_counts_fold (msgs : List TraceMessage) :
    ∀ (acc : List (String × Nat)) (k : String),
      lookupNat (msgs.foldl (fun acc m => dictInsert m.mti (lookupNat acc m.mti + 1) acc) acc) k
        = lookupNat acc k + msgs.countP (fun m => m.mti == k) := by
  induction msgs with
  | nil => intro acc k; simp
  | cons m rest ih =>
    intro acc k
    rw [List.foldl_cons, ih, List.countP_cons, lookupNat_dictInsert]
    by_cases h : k = m.mti
    · have hb : (m.mti == k) = true := by simp [h]
      simp [h, hb]
      try omega
    · have hb : (m.mti == k) = false := by simp [Ne.symm h]
      simp [h, hb]
      try omega

theorem mti_counts_lookup (msgs : List TraceMessage) (k : String) :
    lookupNat (mti_counts msgs) k = msgs.countP (fun m => m.mti == k) := by
  unfold mti_counts
  rw [mti_counts_fold]
  simp [lookupNat, List.lookup]

/-- C8: a message whose MTI lies in the network-management exclusion set is
skipped by the report loop, adding nothing to the transactional total nor to
the clean or with-errors counters, while the per-file MTI counting still
counts it. -/
theorem C8_network_management (de : DataElements) (pre post : List TraceMessage)
    (m : TraceMessage) (h : m.mti = "0800" ∨ m.mti = "0810" ∨ m.mti = "0820") :
    runTotals de (pre ++ m :: post) = runTotals de (pre ++ post)
    ∧ lookupNat (mti_counts (pre ++ m :: post)) m.mti
        = lookupNat (mti_counts (pre ++ post)) m.mti + 1 := by
  constructor
  · unfold runTotals
    rw [List.foldl_append, List.foldl_append, List.foldl_cons]
    have hb : (m.mti == "0800" || m.mti == "0810" || m.mti == "0820") = true := by
      rcases h with h | h | h <;> simp [h]
    congr 1
    unfold totalsStep
    simp only [hb, if_true]
  · rw [mti_counts_lookup, mti_counts_lookup, List.countP_append, List.countP_append,
      List.countP_cons]
    have hb : (m.mti == m.mti) = true := by simp
    simp only [hb, if_true]
    omega

/-- Witness for C8: a 0800 message inserted before a transactional message
changes no totals but bumps its MTI count. -/
theorem C8_network_management_witness :
    (msgC8.mti = "0800" ∨ msgC8.mti = "0810" ∨ msgC8.mti = "0820")
    ∧ (runTotals exDE ([] ++ msgC8 :: [msgC1]) = runTotals exDE ([] ++ [msgC1])
       ∧ lookupNat (mti_counts ([] ++ msgC8 :: [msgC1])) msgC8.mti
           = lookupNat (mti_counts ([] ++ [msgC1])) msgC8.mti + 1) :=
  ⟨Or.inl rfl, C8_network_management exDE [] [msgC1] msgC8 (Or.inl rfl)⟩

/-- C5 counterexample: in one message the parser records field 55 as Nested
from the padded nested-start token, then a later flat line with the unpadded
token FLD (55) re-records the same key as Scalar, refuting the claimed
no-downgrade invariant. -/
theorem C5_counterexample :
    (List.foldl processLine initState
        ["M.T.I : [0210]", "FLD (055) (010)", "> (9F02) : [000000001000]"]).cur
      = some { mti := "0210",
               fields := [("MTI", FieldValue.Scalar "0210"),
                          ("55", FieldValue.Nested [("9F02", "000000001000")])] }
    ∧ parseTrace ["M.T.I : [0210]", "FLD (055) (010)", "> (9F02) : [000000001000]",
        "FLD (55) (3) [abc]"]
      = [{ mti := "0210",
           fields := [("MTI", FieldValue.Scalar "0210"), ("55", FieldValue.Scalar "abc")] }] := by
  decide

theorem nestedWrite_no_scalar (n tag v k : String) (fields : List (String × FieldValue))
    (m0 : List (String × String)) (w : String)
    (hk : List.lookup k fields = some (FieldValue.Nested m0))
    (hs : List.lookup k (nestedWrite n tag v fields) = some (FieldValue.Scalar w)) : False := by
  unfold nestedWrite at hs
  split at hs
  · rw [lookup_dictInsert] at hs
    by_cases hkn : k = n
    · rw [if_pos hkn] at hs
      simp at hs
    · rw [if_neg hkn] at hs
      rw [hk] at hs
      simp at hs
  · rw [hk] at hs
    simp at hs

theorem flatStep_downgrade (st : ParserState) (cm cmA : TraceMessage) (line : String)
    (k : String) (m0 : List (String × String)) (v : String)
    (hcur : st.cur = some cm)
    (hnested : List.lookup k cm.fields = some (FieldValue.Nested m0))
    (hcurA : (flatStep st cm line).cur = some cmA)
    (hscalar : List.lookup k cmA.fields = some (FieldValue.Scalar v)) :
    ∃ fnum len raw, fldSearch line.data = some (fnum, len, raw)
      ∧ normalizeField fnum = k ∧ v = pyStrip raw := by
  simp only [flatStep] at hcurA
  split at hcurA
  · rename_i fnum len raw heq
    injection hcurA with hcurA
    subst hcurA
    rw [lookup_dictInsert] at hscalar
    by_cases hk : k = normalizeField fnum
    · rw [if_pos hk] at hscalar
      injection hscalar with hs2
      injection hs2 with hs3
      exact ⟨fnum, len, raw, heq, hk.symm, hs3.symm⟩
    · rw [if_neg hk] at hscalar
      rw [hnested] at hscalar
      simp at hscalar
  · rw [hcur] at hcurA
    injection hcurA with hcurA
    subst hcurA
    rw [hnested] at hscalar
    simp at hscalar

/-- C5 amended: within a single message a field recorded as Nested can later
be re-recorded as Scalar, but only by a line the flat-field branch matches:
the line carries none of the nested-start tokens FLD (055), FLD (062),
FLD (063), the flat pattern matches with a field number normalizing to that
key, and the recorded scalar is the stripped bracketed value; apart from that,
only a new-message header line can bind a Scalar, and then only at the
reserved MTI key. -/
theorem C5_nested_downgrade (st : ParserState) (line : String) (k : String)
    (m0 : List (String × String)) (v : String) (cm cmA : TraceMessage)
    (hcur : st.cur = some cm)
    (hnested : List.lookup k cm.fields = some (FieldValue.Nested m0))
    (hcurA : (processLine st line).cur = some cmA)
    (hscalar : List.lookup k cmA.fields = some (FieldValue.Scalar v)) :
    (containsSub "M.T.I" (pyStrip line) = true ∧ k = "MTI")
    ∨ (containsSub "FLD (055)" (pyStrip line) = false
       ∧ containsSub "FLD (062)" (pyStrip line) = false
       ∧ containsSub "FLD (063)" (pyStrip line) = false
       ∧ ∃ fnum len raw, fldSearch (pyStrip line).data = some (fnum, len, raw)
           ∧ normalizeField fnum = k ∧ v = pyStrip raw) := by
  simp only [processLine] at hcurA
  split at hcurA
  · rename_i hMTI
    split at hcurA
    · injection hcurA with hcurA
      subst hcurA
      left
      refine ⟨hMTI, ?_⟩
      by_cases hk : k = "MTI"
      · exact hk
      · rw [lookup_cons_ne k "MTI" _ [] hk] at hscalar
        cases hscalar
    · rw [hcur] at hcurA
      injection hcurA with hcurA
      subst hcurA
      rw [hnested] at hscalar
      simp at hscalar
  · rename_i hnoMTI
    split at hcurA
    · rename_i hnone
      rw [hcur] at hnone
      cases hnone
    · rename_i cm2 hcm2
      have hcmeq : cm2 = cm := by
        rw [hcur] at hcm2
        injection hcm2 with h2
        exact h2.symm
      subst hcmeq
      split at hcurA
      · rename_i htok
        split at hcurA
        · rename_i fnum len hns
          injection hcurA with hcurA
          subst hcurA
          rw [lookup_dictInsert] at hscalar
          by_cases hk : k = normalizeField fnum
          · rw [if_pos hk] at hscalar
            simp at hscalar
          · rw [if_neg hk] at hscalar
            rw [hnested] at hscalar
            simp at hscalar
        · rw [hcur] at hcurA
          injection hcurA with hcurA
          subst hcurA
          rw [hnested] at hscalar
          simp at hscalar
      · rename_i htokneg
        have htok3 : containsSub "FLD (055)" (pyStrip line) = false
            ∧ containsSub "FLD (062)" (pyStrip line) = false
            ∧ containsSub "FLD (063)" (pyStrip line) = false := by
          revert htokneg
          cases containsSub "FLD (055)" (pyStrip line) <;>
            cases containsSub "FLD (062)" (pyStrip line) <;>
              cases containsSub "FLD (063)" (pyStrip line) <;> simp
        split at hcurA
        · rename_i n hn
          split at hcurA
          · split at hcurA
            · rename_i tag vv hnl
              injection hcurA with hcurA
              subst hcurA
              exact absurd hscalar
                (fun hs => nestedWrite_no_scalar n (pyStrip tag) (pyStrip vv) k cm2.fields m0 v
                  hnested hs)
            · rw [hcur] at hcurA
              injection hcurA with hcurA
              subst hcurA
              rw [hnested] at hscalar
              simp at hscalar
          · right
            exact ⟨htok3.1, htok3.2.1, htok3.2.2,
              flatStep_downgrade st cm2 cmA (pyStrip line) k m0 v hcur hnested hcurA hscalar⟩
        · right
          exact ⟨htok3.1, htok3.2.1, htok3.2.2,
            flatStep_downgrade st cm2 cmA (pyStrip line) k m0 v hcur hnested hcurA hscalar⟩

/-- Witness for C5 amended on the downgrading line FLD (55) (3) [abc]. -/
theorem C5_nested_downgrade_witness :
    stC5.cur = some cmC5
    ∧ List.lookup "55" cmC5.fields = some (FieldValue.Nested [("9F02", "000000001000")])
    ∧ (processLine stC5 "FLD (55) (3) [abc]").cur = some cmC5A
    ∧ List.lookup "55" cmC5A.fields = some (FieldValue.Scalar "abc")
    ∧ ((containsSub "M.T.I" (pyStrip "FLD (55) (3) [abc]") = true ∧ ("55" : String) = "MTI")
       ∨ (containsSub "FLD (055)" (pyStrip "FLD (55) (3) [abc]") = false
          ∧ containsSub "FLD (062)" (pyStrip "FLD (55) (3) [abc]") = false
          ∧ containsSub "FLD (063)" (pyStrip "FLD (55) (3) [abc]") = false
          ∧ ∃ fnum len raw, fldSearch (pyStrip "FLD (55) (3) [abc]").data = some (fnum, len, raw)
              ∧ normalizeField fnum = "55" ∧ "abc" = pyStrip raw)) :=
  ⟨by decide, by decide, by decide, by decide,
    C5_nested_downgrade stC5 "FLD (55) (3) [abc]" "55" [("9F02", "000000001000")] "abc"
      cmC5 cmC5A (by decide) (by decide) (by decide) (by decide)⟩
